import Mathlib

/-!
Verification development for the media-scraper application in `src/main.py`
(class `MediaScraperGUI`). The definitions below are a shallow embedding of
the crawl/extraction core:

* Python strings are Lean `String`s; the Python string primitives used by the
  source (`strip`, `lower`, `startswith`, the `in` substring operator,
  `split`) are re-implemented structurally over `String.data` so that every
  definition evaluates by kernel reduction.
* Calls into external libraries (Selenium waits, `driver.find_elements`,
  `element.get_attribute`, `re.findall`, `driver.get`, the file append) are
  modelled as environment records; a call that may raise a Python exception
  has type `Except Unit _`, and a `try/except` block in the source becomes a
  `match` that swallows the `.error` case exactly where the source catches.
* The shared mutable flag `self.is_scraping` is modelled as a stream
  `running : Nat → Bool` sampled once per read in the source, in program
  order; the sample clock is threaded through the state.
-/

/-! ### Python string primitives -/

/-- Characters removed by Python `str.strip()` (ASCII whitespace). -/
def isPySpace (c : Char) : Bool :=
  c = ' ' || c = '\t' || c = '\n' || c = '\r' || c = '\x0b' || c = '\x0c'

/-- Python `s.strip()` on the character list. -/
def pyStripChars (s : List Char) : List Char :=
  ((s.dropWhile isPySpace).reverse.dropWhile isPySpace).reverse

/-- Python `s.strip()`. -/
def pyStrip (s : String) : String := ⟨pyStripChars s.data⟩

/-- Python `s.lower()` (ASCII case mapping, which covers the modelled inputs). -/
def pyLower (s : String) : String := ⟨s.data.map Char.toLower⟩

/-- Python truthiness of a string: nonempty. -/
def pyTruthyStr (s : String) : Bool := !s.data.isEmpty

/-- Python `s.startswith(p)`. -/
def startswith (s p : String) : Bool := p.data.isPrefixOf s.data

/-- Contiguous-sublist test on character lists, structurally recursive. -/
def listContains (needle : List Char) : List Char → Bool
  | [] => needle.isEmpty
  | c :: rest => needle.isPrefixOf (c :: rest) || listContains needle rest

/-- Python `needle in hay` on strings (substring containment). -/
def pyIn (needle hay : String) : Bool := listContains needle.data hay.data

/-- Split at the first occurrence of `sep` (Python `s.split(sep, 1)` when it
returns two pieces); `none` when `sep` does not occur. -/
def splitOnceChars (sep : List Char) : List Char → Option (List Char × List Char)
  | [] => if sep.isEmpty then some ([], []) else none
  | c :: rest =>
    if sep.isPrefixOf (c :: rest) then some ([], (c :: rest).drop sep.length)
    else
      match splitOnceChars sep rest with
      | none => none
      | some (a, b) => some (c :: a, b)

/-- Python full `s.split(sep)` on character lists, with fuel bounded by the
length of the string (each round removes at least the separator head). -/
def splitAllAux (sep : List Char) : Nat → List Char → List (List Char)
  | 0, s => [s]
  | fuel + 1, s =>
    match splitOnceChars sep s with
    | none => [s]
    | some (a, b) => a :: splitAllAux sep fuel b

/-- Python `s.split(sep)` for a nonempty separator. -/
def pySplit (sep s : String) : List String :=
  (splitAllAux sep.data (s.data.length + 1) s.data).map (fun l => ⟨l⟩)

/-- Python `sorted` is modelled by insertion sort ordered by code points; the
claims only use that the result is a permutation of the input. -/
def insertSorted (x : String) : List String → List String
  | [] => [x]
  | y :: ys => if x.data < y.data then x :: y :: ys else y :: insertSorted x ys

/-- Python `sorted(links)`. -/
def pySorted (l : List String) : List String := l.foldr insertSorted []

/-! ### Input validation and the start request (`validate_inputs`,
`start_scraping`, and the parameter parsing at the top of `scrape_media`) -/

/-- From `MediaScraperGUI.validate_inputs`: the URL field and the file-types
field must be non-blank after stripping (each failure pops an error box and
returns `False`). -/
def validate_inputs (url fileTypes : String) : Bool :=
  pyTruthyStr (pyStrip url) && pyTruthyStr (pyStrip fileTypes)

/-- From `MediaScraperGUI.start_scraping`: the worker thread is started (the
idle-to-running transition fires) iff validation passes and no crawl is
already in progress (`self.is_scraping`). -/
def start_scraping (url fileTypes : String) (isScraping : Bool) : Bool :=
  validate_inputs url fileTypes && !isScraping

/-- From the top of `scrape_media`: comma-separated fields are parsed as
`[x.strip().lower() for x in field.split(",") if x.strip()]`. -/
def parse_csv_field (s : String) : List String :=
  ((pySplit "," s).filter (fun ft => pyTruthyStr (pyStrip ft))).map
    (fun ft => pyLower (pyStrip ft))

/-! ### Link Extractor (`get_media_links`) -/

/-- A DOM element handle is modelled by its `get_attribute` behaviour:
`.error` when the lookup raises, `.ok none` when the attribute is absent
(Python `None`). -/
def ElemHandle := String → Except Unit (Option String)

/-- Environment of `get_media_links`: the library calls it performs.
`findall shape ext` stands for `re.findall(patterns[shape], page_source,
re.IGNORECASE)` with the four pattern shapes (0 = absolute, 1 =
protocol-relative, 2 = root-relative, 3 = bare) interpolated with `ext`;
it is `.error` when the interpolated pattern fails to compile (`re.error`,
e.g. an extension containing an unbalanced parenthesis). `domQuery i`
stands for `driver.find_elements(By.XPATH, selectors[i])` for the seven
selectors of the source. `bodyWait` is the body-presence
`WebDriverWait(driver, 2).until(...)`; `contentWait` is the second wait,
whose outcome the source discards (both its success and its failure fall
through to the same final stop check). -/
structure ExtractEnv where
  bodyWait : Except Unit Unit
  contentWait : Except Unit Unit
  findall : Nat → String → Except Unit (List String)
  domQuery : Nat → Except Unit (List ElemHandle)

/-- The attribute names probed on each DOM element. -/
def attrNames : List String := ["href", "src", "data-src", "data-url", "data-video"]

/-- The check `any(f".{ext}" in v.lower() for ext in file_extensions)`. -/
def ext_in_lower (exts : List String) (v : String) : Bool :=
  exts.any (fun e => pyIn ("." ++ e) (pyLower v))

/-- The regex cascade for one extension: the four shapes in order, each
`re.findall` outside any `try` block, so a failure propagates. -/
def collectShapes (env : ExtractEnv) (e : String) : List Nat → Except Unit (List String)
  | [] => .ok []
  | i :: rest =>
    match env.findall i e with
    | .error u => .error u
    | .ok ms =>
      match collectShapes env e rest with
      | .error u => .error u
      | .ok more => .ok (ms ++ more)

/-- The regex stage over all extensions (`for ext in file_extensions`). -/
def collectRegex (env : ExtractEnv) : List String → Except Unit (List String)
  | [] => .ok []
  | e :: rest =>
    match collectShapes env e [0, 1, 2, 3] with
    | .error u => .error u
    | .ok ms =>
      match collectRegex env rest with
      | .error u => .error u
      | .ok more => .ok (ms ++ more)

/-- The innermost attribute loop: each `get_attribute` sits in its own
`try/except: continue`, and a value is kept when it is truthy and contains
one of the extensions. -/
def collectAttrs (exts : List String) (el : ElemHandle) : List String → List String
  | [] => []
  | a :: rest =>
    (match el a with
      | .error _ => []
      | .ok none => []
      | .ok (some v) => if pyTruthyStr v && ext_in_lower exts v then [v] else []) ++
    collectAttrs exts el rest

/-- The element loop of one selector. -/
def collectDomSel (exts : List String) : List ElemHandle → List String
  | [] => []
  | el :: rest => collectAttrs exts el attrNames ++ collectDomSel exts rest

/-- The selector loop: each `find_elements` sits in a `try/except: continue`,
so a failing selector contributes nothing. -/
def collectDom (env : ExtractEnv) (exts : List String) : List Nat → List String
  | [] => []
  | i :: rest =>
    (match env.domQuery i with
      | .error _ => []
      | .ok els => collectDomSel exts els) ++
    collectDom env exts rest

/-- The host part `driver.current_url.split("://", 1)[1].split("/", 1)[0]`.
`none` models the `IndexError` raised by `[1]` when the current URL contains
no `://`. -/
def baseUrlOf (cur : String) : Option String :=
  match splitOnceChars "://".data cur.data with
  | none => none
  | some (_, rest) =>
    match splitOnceChars "/".data rest with
    | none => some ⟨rest⟩
    | some (host, _) => some ⟨host⟩

/-- The relative-to-absolute conversion at the end of `get_media_links`:
`"//..."` gets `"https:"` prepended, a single-slash value gets
`"https://" ++ host` prepended (raising when the current URL has no `://`),
anything else passes through unchanged. This code runs outside any `try`
block, so its `IndexError` propagates. -/
def normalizeLink (link cur : String) : Except Unit String :=
  if startswith link "//" then .ok ("https:" ++ link)
  else if startswith link "/" then
    match baseUrlOf cur with
    | none => .error ()
    | some h => .ok ("https://" ++ h ++ link)
  else .ok link

/-- The cleanup loop `for link in set(media_links)`: strip, keep only truthy
values containing a requested extension, then normalize. -/
def cleanLinks (exts : List String) (cur : String) : List String → Except Unit (List String)
  | [] => .ok []
  | l0 :: rest =>
    if pyTruthyStr (pyStrip l0) && ext_in_lower exts (pyStrip l0) then
      match normalizeLink (pyStrip l0) cur with
      | .error u => .error u
      | .ok n =>
        match cleanLinks exts cur rest with
        | .error u => .error u
        | .ok r => .ok (n :: r)
    else cleanLinks exts cur rest

/-- The processing part of `get_media_links` after the stop checks: regex
cascade, DOM probing, then clean-and-deduplicate. The Python `set(...)`
passes are modelled by `List.dedup` (iteration order of a Python set is
unspecified; only membership is used downstream). -/
def extractCore (env : ExtractEnv) (exts : List String) (cur : String) :
    Except Unit (List String) :=
  match collectRegex env exts with
  | .error u => .error u
  | .ok rx =>
    match cleanLinks exts cur ((rx ++ collectDom env exts [0, 1, 2, 3, 4, 5, 6]).dedup) with
    | .error u => .error u
    | .ok cleaned => .ok cleaned.dedup

/-- `get_media_links(driver, file_extensions)`. `running` is the sampled
`self.is_scraping` flag and `t` the sample clock on entry. The source checks
the flag on entry, then (inside the `try`) after the body-presence wait, and
finally just before reading `page_source`; when the body wait raises, the
warning branch skips the middle check, so the final check is the second
sample instead of the third. -/
def get_media_links (env : ExtractEnv) (running : Nat → Bool) (t : Nat)
    (exts : List String) (cur : String) : Except Unit (List String) :=
  if running t = false then .ok []
  else
    match env.bodyWait with
    | .error _ =>
      if running (t + 1) = false then .ok []
      else extractCore env exts cur
    | .ok _ =>
      if running (t + 1) = false then .ok []
      else if running (t + 2) = false then .ok []
      else extractCore env exts cur

/-! ### Pagination Locator (`find_next_page`) -/

/-- Environment of `find_next_page`: `probe pattern i` stands for
`wait.until(presence_of_element_located(selectors[i]))` followed by
`element.get_attribute("href")`, for the five selector shapes built from
`pattern` (0 = class contains, 1 = rel equals, 2 = title contains,
3 = CSS text contains, 4 = XPath text-to-ancestor-anchor). `.error` models
a timeout, an invalid selector, or a raising attribute lookup — all caught
by the per-selector `try/except: continue`; `.ok v` is an element found
with href `v` (`none` models Python `None`). -/
structure NextEnv where
  probe : String → Nat → Except Unit (Option String)

/-- Outcome of the selector loop for one pattern. -/
inductive ProbeOut
  | found (href : String)
  | stopped
  | exhausted (t : Nat)

/-- The five-selector loop of `find_next_page` for one pattern: the flag is
sampled before every probe; a found element is returned only when its href
is truthy, otherwise the loop falls through to the next selector. -/
def shapeLoop (env : NextEnv) (running : Nat → Bool) (pat : String) :
    List Nat → Nat → ProbeOut
  | [], t => .exhausted t
  | i :: rest, t =>
    if running t = false then .stopped
    else
      match env.probe pat i with
      | .error _ => shapeLoop env running pat rest (t + 1)
      | .ok none => shapeLoop env running pat rest (t + 1)
      | .ok (some h) =>
        if pyTruthyStr h then .found h else shapeLoop env running pat rest (t + 1)

/-- The pattern loop of `find_next_page`: flag sampled at every pattern
boundary, first found href returned immediately. -/
def patLoop (env : NextEnv) (running : Nat → Bool) :
    List String → Nat → Option String
  | [], _ => none
  | p :: rest, t =>
    if running t = false then none
    else
      match shapeLoop env running p [0, 1, 2, 3, 4] (t + 1) with
      | .found h => some h
      | .stopped => none
      | .exhausted t2 => patLoop env running rest t2

/-- `find_next_page(driver, next_patterns)`: entry stop check, then the
pattern loop; the whole body is wrapped in `try/except: pass`, so the
function always returns (modelled by the total `Option` result). -/
def find_next_page (env : NextEnv) (running : Nat → Bool) (t : Nat)
    (patterns : List String) : Option String :=
  if running t = false then none
  else patLoop env running patterns (t + 1)

/-- Modelled from the spec words (for comparison with `find_next_page`):
first-match-wins over patterns in order and the five selector shapes in
order, returning the first probe that resolves to an element with a
non-empty href. -/
def firstShapeHit (env : NextEnv) (p : String) : List Nat → Option String
  | [] => none
  | i :: rest =>
    match env.probe p i with
    | .ok (some h) => if pyTruthyStr h then some h else firstShapeHit env p rest
    | _ => firstShapeHit env p rest

/-- Modelled from the spec words: priority search over the pattern list. -/
def firstHitSpec (env : NextEnv) : List String → Option String
  | [] => none
  | p :: rest =>
    match firstShapeHit env p [0, 1, 2, 3, 4] with
    | some h => some h
    | none => firstHitSpec env rest

/-! ### Crawl Loop (`scrape_media`) -/

/-- Trace of observable actions of the crawl loop, recorded by the embedding
so that theorems can state which pages were navigated to, extracted, and
persisted. -/
inductive CrawlEvent
  | nav (page : Nat) (url : String)
  | extracted (page : Nat) (links : List String)
  | persisted (page : Nat) (lines : List String)
  | paged (page : Nat) (next : Option String)
deriving Repr, DecidableEq

/-- State of the crawl loop: `pageUrl` is `page_url`, `pageCount` is
`page_count`, `collected` is the seen-set `collected_media` (a Python set,
modelled as a duplicate-free list whose order is internal), `fileLines` is
the sequence of lines appended to the output file so far, and `t` is the
sample clock of the shared `is_scraping` flag. -/
structure CrawlState where
  pageUrl : Option String
  pageCount : Nat
  collected : List String
  pagesWithoutMedia : Nat
  fileLines : List String
  events : List CrawlEvent
  t : Nat
deriving Repr, DecidableEq

/-- Environment of the crawl loop. `navigate pc url` is `driver.get(url)` at
page count `pc` (`0` for the pre-loop CAPTCHA load), `extract` is the
outcome of `self.get_media_links(...)` on that page, `findNext` the outcome
of `self.find_next_page(...)`, and `saveLimit pc` the number of lines the
append in `save_media_links_to_file` manages to write before an I/O failure
stops it (at least the batch length when the write succeeds; the failure is
caught inside that helper, so it never propagates). `driverOk` is the
outcome of `setup_selenium_driver`, `dialogOk` the CAPTCHA dialog result
(false covers both Cancel and a stop while waiting). -/
structure CrawlEnv where
  driverOk : Bool
  dialogOk : Bool
  navigate : Nat → String → Except Unit Unit
  extract : Nat → String → Except Unit (List String)
  findNext : Nat → String → Option String
  saveLimit : Nat → Nat

/-- `save_media_links_to_file(media_links, filename)`: sorts the batch and
appends line by line; `limit` bounds how many lines are written before an
I/O failure interrupts the helper (the exception is caught inside it). -/
def save_media_links_to_file (limit : Nat) (links : List String) : List String :=
  (pySorted links).take limit

/-- Result of one iteration of the `while` body: continue or leave the loop
(`break`, including the `except` branch). -/
inductive IterResult
  | next (s : CrawlState)
  | done (s : CrawlState)

/-- The state carried by either iteration outcome. -/
def stateOfIter : IterResult → CrawlState
  | .next s => s
  | .done s => s

/-- The difference `set(page_media) - collected_media` as a list: the
distinct extracted links not yet in the seen-set. -/
def newLinksOf (media collected : List String) : List String :=
  media.dedup.filter (fun l => decide (l ∉ collected))

/-- The block `if page_media: ...` of the loop: diff the extracted links
against the seen-set, merge the extraction into the seen-set (membership is
what matters; the source updates with all of `page_media`, which adds
exactly the difference), and persist the sorted difference when non-empty;
on an empty extraction only the empty-page counter advances. -/
def processMedia (env : CrawlEnv) (pc : Nat) (media : List String)
    (s : CrawlState) : CrawlState :=
  if media.isEmpty then { s with pagesWithoutMedia := s.pagesWithoutMedia + 1 }
  else if (newLinksOf media s.collected).isEmpty then
    { s with collected := s.collected ++ newLinksOf media s.collected,
             pagesWithoutMedia := 0 }
  else
    { s with collected := s.collected ++ newLinksOf media s.collected,
             pagesWithoutMedia := 0,
             fileLines := s.fileLines ++
               save_media_links_to_file (env.saveLimit pc) (newLinksOf media s.collected),
             events := s.events ++
               [.persisted pc
                 (save_media_links_to_file (env.saveLimit pc) (newLinksOf media s.collected))] }

/-- The responsive inter-page sleep: up to `steps` sleep rounds, each
preceded by a flag sample; an observed false breaks out of the sleep only
(the loop guard re-samples). Returns the advanced sample clock. -/
def sleepSamples (running : Nat → Bool) : Nat → Nat → Nat
  | t, 0 => t
  | t, steps + 1 => if running t = false then t + 1 else sleepSamples running (t + 1) steps

/-- The tail of the `while` body after extraction and persistence: stop
check before pagination, `find_next_page` (a falsy result ends the loop with
`No more pages found`), and the inter-page sleep, shorter when the page had
no media. -/
def afterPersist (env : CrawlEnv) (running : Nat → Bool) (pc : Nat) (url : String)
    (s2 : CrawlState) : IterResult :=
  if running s2.t = false then .done { s2 with t := s2.t + 1 }
  else
    match env.findNext pc url with
    | none => .done { s2 with t := s2.t + 1, events := s2.events ++ [.paged pc none] }
    | some nxt =>
      if pyTruthyStr nxt then
        .next { s2 with pageUrl := some nxt,
                        t := sleepSamples running (s2.t + 1)
                          (if s2.pagesWithoutMedia > 0 then 1 else 3),
                        events := s2.events ++ [.paged pc (some nxt)] }
      else .done { s2 with t := s2.t + 1, events := s2.events ++ [.paged pc (some nxt)] }

/-- The part of the `while` body after a successful (or skipped) navigation:
stop check after page load, then extraction — whose exception breaks the
loop via the `except` branch — then the persistence block and the tail. -/
def afterNav (env : CrawlEnv) (running : Nat → Bool) (pc : Nat) (url : String)
    (s : CrawlState) : IterResult :=
  if running s.t = false then .done { s with t := s.t + 1 }
  else
    match env.extract pc url with
    | .error _ => .done { s with t := s.t + 1 }
    | .ok media =>
      afterPersist env running pc url
        (processMedia env pc media
          { s with t := s.t + 1, events := s.events ++ [.extracted pc media] })

/-- One iteration of the `while` body, entered after the loop guard sampled
true: `page_count += 1`, stop check, then (unless this is the first page in
CAPTCHA mode) a stop check and the navigation, whose exception breaks the
loop via the `except` branch. -/
def crawlIter (env : CrawlEnv) (running : Nat → Bool) (captcha : Bool)
    (s : CrawlState) (url : String) : IterResult :=
  if running s.t = false then .done { s with pageCount := s.pageCount + 1, t := s.t + 1 }
  else if !captcha || decide (s.pageCount + 1 > 1) then
    if running (s.t + 1) = false then
      .done { s with pageCount := s.pageCount + 1, t := s.t + 2 }
    else
      match env.navigate (s.pageCount + 1) url with
      | .error _ => .done { s with pageCount := s.pageCount + 1, t := s.t + 2 }
      | .ok _ =>
        afterNav env running (s.pageCount + 1) url
          { s with pageCount := s.pageCount + 1, t := s.t + 2,
                   events := s.events ++ [.nav (s.pageCount + 1) url] }
  else
    afterNav env running (s.pageCount + 1) url
      { s with pageCount := s.pageCount + 1, t := s.t + 1 }

/-- The `while page_url and self.is_scraping` loop, fuel-indexed. The Bool
of the result is true when the loop left through its guard or a `break`
(after which `scrape_media` unconditionally runs the summary and
`scraping_finished(True)`), and false when the fuel ran out with the loop
still going. The guard samples the flag only when `page_url` is truthy
(Python short-circuit). -/
def crawlLoop (env : CrawlEnv) (running : Nat → Bool) (captcha : Bool) :
    Nat → CrawlState → CrawlState × Bool
  | 0, s => (s, false)
  | fuel + 1, s =>
    match s.pageUrl with
    | none => (s, true)
    | some url =>
      if pyTruthyStr url = false then (s, true)
      else if running s.t = false then ({ s with t := s.t + 1 }, true)
      else
        match crawlIter env running captcha { s with t := s.t + 1 } url with
        | .done s2 => (s2, true)
        | .next s2 => crawlLoop env running captcha fuel s2

/-- The terminal state reported through `scraping_finished`. -/
inductive Terminal
  | success
  | failure
deriving Repr, DecidableEq

/-- The initial crawl state at the top of `scrape_media`. -/
def initState (url : String) : CrawlState :=
  { pageUrl := some url, pageCount := 0, collected := [], pagesWithoutMedia := 0,
    fileLines := [], events := [], t := 0 }

/-- After the loop, `scrape_media` logs the summary and always calls
`scraping_finished(True)` — on the no-more-pages exit, on an observed stop,
and on the page-level `except ... break` alike. `none` means the loop was
still running when the fuel ran out. -/
def loopTerminal (r : CrawlState × Bool) : Option Terminal :=
  if r.2 then some .success else none

/-- `scrape_media` end to end: driver setup failure aborts with
`scraping_finished(False)`; in CAPTCHA mode the first page is loaded before
the loop (an exception there reaches the outer handler, hence failure) and a
cancelled dialog aborts with failure; otherwise the loop runs and its exit —
whatever caused it — is reported as success. -/
def scrape_media (env : CrawlEnv) (running : Nat → Bool) (captcha : Bool)
    (url : String) (fuel : Nat) : Option Terminal × CrawlState :=
  if env.driverOk = false then (some .failure, initState url)
  else if captcha then
    match env.navigate 0 url with
    | .error _ => (some .failure, initState url)
    | .ok _ =>
      if env.dialogOk = false then (some .failure, initState url)
      else
        let r := crawlLoop env running captcha fuel (initState url)
        (loopTerminal r, r.1)
  else
    let r := crawlLoop env running captcha fuel (initState url)
    (loopTerminal r, r.1)

/-! ### Concrete environments used by instance theorems -/

/-- Extractor environment of a page whose source contains the single bare
candidate `a.mp4` (matched by the fourth, bare, regex shape). -/
def envBare : ExtractEnv :=
  { bodyWait := .ok (), contentWait := .ok (),
    findall := fun i e => if i = 3 && e = "mp4" then .ok ["a.mp4"] else .ok [],
    domQuery := fun _ => .ok [] }

/-- Extractor environment of a page whose source contains the single
root-relative candidate `/a.mp4` (matched by the third regex shape). -/
def envRootRel : ExtractEnv :=
  { bodyWait := .ok (), contentWait := .ok (),
    findall := fun i e => if i = 2 && e = "mp4" then .ok ["/a.mp4"] else .ok [],
    domQuery := fun _ => .ok [] }

/-- Extractor environment where every DOM query and the second wait raise
and the regex stage finds nothing. -/
def envDomFail : ExtractEnv :=
  { bodyWait := .ok (), contentWait := .error (),
    findall := fun _ _ => .ok [],
    domQuery := fun _ => .error () }

/-- Crawl environment of a site where every page yields `a.mp4` and a link
to a next page. -/
def envOnePage : CrawlEnv :=
  { driverOk := true, dialogOk := true,
    navigate := fun _ _ => .ok (),
    extract := fun _ _ => .ok ["a.mp4"],
    findNext := fun _ _ => some "http://b.example/2",
    saveLimit := fun _ => 1000 }

/-- Crawl environment where extraction raises on every page. -/
def envExtractBoom : CrawlEnv :=
  { driverOk := true, dialogOk := true,
    navigate := fun _ _ => .ok (),
    extract := fun _ _ => .error (),
    findNext := fun _ _ => none,
    saveLimit := fun _ => 1000 }

/-- Crawl environment of a site with unlimited next-links and no media. -/
def envAlwaysNext : CrawlEnv :=
  { driverOk := true, dialogOk := true,
    navigate := fun _ _ => .ok (),
    extract := fun _ _ => .ok [],
    findNext := fun _ _ => some "http://next.example/page",
    saveLimit := fun _ => 1000 }

/-- Pagination environment where only the rel-equals probe of the pattern
`more` resolves, with a truthy href. -/
def envMoreRel : NextEnv :=
  { probe := fun p i =>
      if p = "more" && i = 1 then .ok (some "https://s.example/p2") else .error () }

/-- Modelled from the spec words: a fully-qualified URL as produced by the
normalization, i.e. carrying an explicit http or https scheme. -/
def isFullyQualifiedUrl (s : String) : Bool :=
  startswith s "http://" || startswith s "https://"

/-! ### Helper lemmas -/

lemma strData_append (a b : String) : (a ++ b).data = a.data ++ b.data := by
  cases a; cases b; rfl

lemma pyLower_append (a b : String) : pyLower (a ++ b) = pyLower a ++ pyLower b := by
  cases a with
  | mk la =>
    cases b with
    | mk lb =>
      show String.mk (((String.mk la) ++ (String.mk lb)).data.map Char.toLower) = _
      simp [strData_append]
      rfl

lemma listContains_append_left (pre n h : List Char)
    (hc : listContains n h = true) : listContains n (pre ++ h) = true := by
  induction pre with
  | nil => simpa using hc
  | cons c cs ih => simp [listContains, ih]

lemma pyIn_prepend (pre s needle : String) (hc : pyIn needle s = true) :
    pyIn needle (pre ++ s) = true := by
  unfold pyIn at *
  rw [strData_append]
  exact listContains_append_left _ _ _ hc

lemma insertSorted_perm (x : String) (l : List String) :
    List.Perm (insertSorted x l) (x :: l) := by
  induction l with
  | nil => simp [insertSorted]
  | cons y ys ih =>
    simp only [insertSorted]
    split
    · exact List.Perm.refl _
    · exact (ih.cons y).trans (List.Perm.swap x y ys)

lemma pySorted_perm (l : List String) : List.Perm (pySorted l) l := by
  induction l with
  | nil => simp [pySorted]
  | cons x xs ih =>
    show List.Perm (insertSorted x (pySorted xs)) (x :: xs)
    exact (insertSorted_perm x (pySorted xs)).trans (ih.cons x)

/-! ### Claim C9 -/

/-- Claim C9 (amended): a start request causes no idle-to-running transition
when the URL field is blank after stripping, when the file-types field is
blank after stripping, or when a crawl is already running. (The original
claim spoke of an empty target extension set; the code only checks the raw
field for blankness, so a field like a lone comma passes validation while
parsing to the empty set — see the counterexample.) -/
theorem start_rejects_blank_or_running :
    ∀ url ft r,
      (pyTruthyStr (pyStrip url) = false → start_scraping url ft r = false) ∧
      (pyTruthyStr (pyStrip ft) = false → start_scraping url ft r = false) ∧
      (r = true → start_scraping url ft r = false) := by
  intro url ft r
  refine ⟨?_, ?_, ?_⟩ <;> intro h <;> simp [start_scraping, validate_inputs, h]

/-- Witness for C9 (amended): a blank URL and an in-progress crawl each
block the start. -/
theorem start_rejects_blank_or_running_inst :
    start_scraping "  " "mp4" false = false ∧
    start_scraping "https://e.example" "mp4" true = false :=
  ⟨(start_rejects_blank_or_running "  " "mp4" false).1 (by decide),
   (start_rejects_blank_or_running "https://e.example" "mp4" true).2.2 rfl⟩

/-- Counterexample for C9 as stated: the file-types field consisting of a
single comma passes validation (the worker thread is started) although the
parsed target extension set is empty. -/
theorem blank_check_not_set_check_cex :
    start_scraping "https://example.com" "," false = true ∧
    parse_csv_field "," = [] := by
  exact ⟨rfl, rfl⟩

/-! ### Claim C5 -/

/-- Claim C5 (amended): the Link Extractor normalizes a candidate beginning
with a double slash by prefixing `https:`, a candidate beginning with a
single slash by prefixing `https://` and the host of the current page, and
passes any other candidate through unchanged. (The original claim added that
every returned link is fully qualified; the counterexample shows a bare
relative candidate returned unchanged.) -/
theorem normalize_rules :
    ∀ link cur h,
      (startswith link "//" = true →
        normalizeLink link cur = .ok ("https:" ++ link)) ∧
      (startswith link "//" = false → startswith link "/" = true →
        baseUrlOf cur = some h →
        normalizeLink link cur = .ok ("https://" ++ h ++ link)) ∧
      (startswith link "//" = false → startswith link "/" = false →
        normalizeLink link cur = .ok link) := by
  intro link cur h
  refine ⟨?_, ?_, ?_⟩
  · intro h1; simp [normalizeLink, h1]
  · intro h1 h2 h3; simp [normalizeLink, h1, h2, h3]
  · intro h1 h2; simp [normalizeLink, h1, h2]

/-- Witness for C5 (amended), at the two examples of the specification. -/
theorem normalize_rules_inst :
    normalizeLink "//cdn.example.com/a.mp4" "https://site.example" =
      .ok "https://cdn.example.com/a.mp4" ∧
    normalizeLink "/v/a.mp4" "https://site.example" =
      .ok "https://site.example/v/a.mp4" := by
  constructor
  · exact (normalize_rules "//cdn.example.com/a.mp4" "https://site.example"
      "site.example").1 (by decide)
  · exact (normalize_rules "/v/a.mp4" "https://site.example"
      "site.example").2.1 (by decide) (by decide) (by decide)

/-- Counterexample for C5 as stated: on a page whose source contains the
bare candidate `a.mp4`, the extractor returns it unchanged, and it is not a
fully-qualified URL. -/
theorem bare_link_not_absolute_cex :
    get_media_links envBare (fun _ => true) 0 ["mp4"] "https://site.example/p" =
      .ok ["a.mp4"] ∧
    isFullyQualifiedUrl "a.mp4" = false := by
  exact ⟨rfl, rfl⟩

/-! ### Claim C4 -/

lemma collectShapes_ok (env : ExtractEnv) (e : String)
    (hf : ∀ i, ∃ v, env.findall i e = .ok v) :
    ∀ shapes, ∃ v, collectShapes env e shapes = .ok v := by
  intro shapes
  induction shapes with
  | nil => exact ⟨[], rfl⟩
  | cons i rest ih =>
    obtain ⟨v, hv⟩ := hf i
    obtain ⟨w, hw⟩ := ih
    exact ⟨v ++ w, by simp [collectShapes, hv, hw]⟩

lemma collectRegex_ok (env : ExtractEnv)
    (hf : ∀ i e, ∃ v, env.findall i e = .ok v) :
    ∀ exts, ∃ v, collectRegex env exts = .ok v := by
  intro exts
  induction exts with
  | nil => exact ⟨[], rfl⟩
  | cons e rest ih =>
    obtain ⟨v, hv⟩ := collectShapes_ok env e (fun i => hf i e) [0, 1, 2, 3]
    obtain ⟨w, hw⟩ := ih
    exact ⟨v ++ w, by simp [collectRegex, hv, hw]⟩

lemma normalizeLink_ok (link cur h : String) (hb : baseUrlOf cur = some h) :
    ∃ v, normalizeLink link cur = .ok v := by
  unfold normalizeLink
  split
  · exact ⟨_, rfl⟩
  · split
    · rw [hb]; exact ⟨_, rfl⟩
    · exact ⟨_, rfl⟩

lemma cleanLinks_ok (exts : List String) (cur h : String)
    (hb : baseUrlOf cur = some h) :
    ∀ cands, ∃ v, cleanLinks exts cur cands = .ok v := by
  intro cands
  induction cands with
  | nil => exact ⟨[], rfl⟩
  | cons c rest ih =>
    obtain ⟨w, hw⟩ := ih
    by_cases hcond : (pyTruthyStr (pyStrip c) && ext_in_lower exts (pyStrip c)) = true
    · obtain ⟨n, hn⟩ := normalizeLink_ok (pyStrip c) cur h hb
      refine ⟨n :: w, ?_⟩
      simp only [cleanLinks, if_pos hcond, hn, hw]
    · refine ⟨w, ?_⟩
      simp only [cleanLinks, if_neg hcond]
      exact hw

/-- Claim C4 (amended): inside `get_media_links`, the page waits, the DOM
queries, and the attribute lookups are all guarded — whatever they do, the
extractor completes normally; the only unguarded operations are the
`re.findall` calls of the regex stage and the host extraction of the
normalization, so whenever every interpolated pattern compiles and the
current URL contains `://`, no exception escapes. (The original claim said
no exception ever escapes; the counterexample exhibits an escaping
normalization failure.) -/
theorem extractor_guarded_probes :
    ∀ (env : ExtractEnv) (running : Nat → Bool) (t : Nat) (exts : List String)
      (cur h : String),
      (∀ i e, ∃ v, env.findall i e = .ok v) →
      baseUrlOf cur = some h →
      ∃ l, get_media_links env running t exts cur = .ok l := by
  intro env running t exts cur h hf hb
  have hcore : ∃ l, extractCore env exts cur = .ok l := by
    obtain ⟨rx, hrx⟩ := collectRegex_ok env hf exts
    obtain ⟨cl, hcl⟩ := cleanLinks_ok exts cur h hb
      ((rx ++ collectDom env exts [0, 1, 2, 3, 4, 5, 6]).dedup)
    exact ⟨cl.dedup, by simp [extractCore, hrx, hcl]⟩
  unfold get_media_links
  split
  · exact ⟨[], rfl⟩
  · cases henv : env.bodyWait <;> simp only []
    · split
      · exact ⟨[], rfl⟩
      · exact hcore
    · split
      · exact ⟨[], rfl⟩
      · split
        · exact ⟨[], rfl⟩
        · exact hcore

/-- Witness for C4 (amended): with every DOM query and the content wait
raising, the extractor still returns normally. -/
theorem extractor_guarded_probes_inst :
    ∃ l, get_media_links envDomFail (fun _ => true) 0 ["mp4"]
      "https://x.example/p" = .ok l :=
  extractor_guarded_probes envDomFail (fun _ => true) 0 ["mp4"]
    "https://x.example/p" "x.example" (fun _ _ => ⟨[], rfl⟩) (by decide)

/-- Counterexample for C4 as stated: a root-relative candidate on a page
whose current URL lacks `://` makes the normalization raise `IndexError`,
and the exception escapes `get_media_links`. -/
theorem extractor_raises_cex :
    get_media_links envRootRel (fun _ => true) 0 ["mp4"] "about:blank" =
      .error () := by
  exact rfl

/-! ### Claim C6 -/

lemma ext_in_lower_exists (exts : List String) (v : String)
    (hm : ext_in_lower exts v = true) :
    ∃ e, e ∈ exts ∧ pyIn ("." ++ e) (pyLower v) = true := by
  simpa [ext_in_lower, List.any_eq_true] using hm

lemma normalizeLink_preserves (link cur n x : String)
    (hn : normalizeLink link cur = .ok n)
    (hc : pyIn x (pyLower link) = true) : pyIn x (pyLower n) = true := by
  unfold normalizeLink at hn
  split at hn
  · cases hn
    rw [pyLower_append]
    exact pyIn_prepend _ _ _ hc
  · split at hn
    · cases hb : baseUrlOf cur with
      | none => rw [hb] at hn; cases hn
      | some h0 =>
        rw [hb] at hn
        cases hn
        rw [pyLower_append]
        exact pyIn_prepend _ _ _ hc
    · cases hn
      exact hc

lemma cleanLinks_sound (exts : List String) (cur : String) :
    ∀ cands out, cleanLinks exts cur cands = .ok out →
      ∀ l ∈ out, ∃ e, e ∈ exts ∧ pyIn ("." ++ e) (pyLower l) = true := by
  intro cands
  induction cands with
  | nil =>
    intro out hout l hl
    cases hout
    cases hl
  | cons c rest ih =>
    intro out hout l hl
    by_cases hcond : (pyTruthyStr (pyStrip c) && ext_in_lower exts (pyStrip c)) = true
    · rw [show cleanLinks exts cur (c :: rest) =
          (match normalizeLink (pyStrip c) cur with
            | .error u => .error u
            | .ok n =>
              match cleanLinks exts cur rest with
              | .error u => .error u
              | .ok r => .ok (n :: r)) from by
            simp only [cleanLinks, if_pos hcond]] at hout
      cases hn : normalizeLink (pyStrip c) cur with
      | error u => rw [hn] at hout; simp at hout
      | ok n =>
        rw [hn] at hout
        cases hr : cleanLinks exts cur rest with
        | error u => rw [hr] at hout; simp at hout
        | ok r =>
          rw [hr] at hout
          replace hout : n :: r = out := by simpa using hout
          subst hout
          rcases List.mem_cons.mp hl with hl | hl
          · subst hl
            obtain ⟨e, he, hpe⟩ := ext_in_lower_exists exts (pyStrip c)
              ((Bool.and_eq_true _ _).mp hcond).2
            exact ⟨e, he, normalizeLink_preserves _ cur _ _ hn hpe⟩
          · exact ih r hr l hl
    · rw [show cleanLinks exts cur (c :: rest) = cleanLinks exts cur rest from by
        simp only [cleanLinks, if_neg hcond]] at hout
      exact ih out hout l hl

lemma cleanLinks_no_match (exts : List String) (cur : String) :
    ∀ cands,
      (∀ c ∈ cands, (pyTruthyStr (pyStrip c) && ext_in_lower exts (pyStrip c)) = false) →
      cleanLinks exts cur cands = .ok [] := by
  intro cands
  induction cands with
  | nil => intro _; rfl
  | cons c rest ih =>
    intro hall
    have hc : ¬ ((pyTruthyStr (pyStrip c) && ext_in_lower exts (pyStrip c)) = true) := by
      simp [hall c (List.mem_cons_self c rest)]
    simp only [cleanLinks, if_neg hc]
    exact ih (fun d hd => hall d (List.mem_cons_of_mem c hd))

lemma extractCore_ok_elim (env : ExtractEnv) (exts : List String) (cur : String)
    (res0 : List String) (h : extractCore env exts cur = .ok res0) :
    ∃ rx cleaned, collectRegex env exts = .ok rx ∧
      cleanLinks exts cur ((rx ++ collectDom env exts [0, 1, 2, 3, 4, 5, 6]).dedup) =
        .ok cleaned ∧
      res0 = cleaned.dedup := by
  unfold extractCore at h
  split at h
  · simp at h
  · rename_i rx hrx
    split at h
    · simp at h
    · rename_i cleaned hcl
      injection h with h
      exact ⟨rx, cleaned, hrx, hcl, h.symm⟩

/-- Claim C6 (confirmed): every string returned by `get_media_links`
contains, after lowering, `.e` for some requested extension `e` (for the
lowercase extension sets the caller produces this is exactly
case-insensitive containment), and a candidate set in which nothing matches
yields the empty result. -/
theorem extractor_result_matches_ext :
    (∀ (env : ExtractEnv) (running : Nat → Bool) (t : Nat) (exts : List String)
       (cur : String) (res : List String) (link : String),
       get_media_links env running t exts cur = .ok res → link ∈ res →
       ∃ e, e ∈ exts ∧ pyIn ("." ++ e) (pyLower link) = true) ∧
    (∀ (exts : List String) (cur : String) (cands : List String),
       (∀ c ∈ cands, (pyTruthyStr (pyStrip c) && ext_in_lower exts (pyStrip c)) = false) →
       cleanLinks exts cur cands = .ok []) := by
  constructor
  · intro env running t exts cur res link hres hlink
    have hcore : ∀ res0, extractCore env exts cur = .ok res0 → link ∈ res0 →
        ∃ e, e ∈ exts ∧ pyIn ("." ++ e) (pyLower link) = true := by
      intro res0 hres0 hl0
      obtain ⟨rx, cleaned, hrx, hcl, hres1⟩ := extractCore_ok_elim env exts cur res0 hres0
      subst hres1
      exact cleanLinks_sound exts cur _ cleaned hcl link (List.mem_dedup.mp hl0)
    unfold get_media_links at hres
    split at hres
    · cases hres; cases hlink
    · split at hres
      · split at hres
        · cases hres; cases hlink
        · exact hcore res hres hlink
      · split at hres
        · cases hres; cases hlink
        · split at hres
          · cases hres; cases hlink
          · exact hcore res hres hlink
  · exact fun exts cur cands h => cleanLinks_no_match exts cur cands h

/-- Witness for C6: on the concrete page with candidate `a.mp4` the
guarantee holds, and a candidate list with no matching extension cleans to
the empty list. -/
theorem extractor_result_matches_ext_inst :
    (∃ e, e ∈ ["mp4"] ∧ pyIn ("." ++ e) (pyLower "a.mp4") = true) ∧
    cleanLinks ["mp4"] "https://site.example/p" ["b.txt", " "] = .ok [] := by
  constructor
  · exact extractor_result_matches_ext.1 envBare (fun _ => true) 0 ["mp4"]
      "https://site.example/p" ["a.mp4"] "a.mp4" rfl (by decide)
  · exact extractor_result_matches_ext.2 ["mp4"] "https://site.example/p"
      ["b.txt", " "] (by decide)

/-! ### Claim C10 -/

/-- Claim C10 (confirmed): `get_media_links` returns the empty list when the
running flag is sampled false on entry, at the checkpoint following the
body-presence wait (which is the final pre-processing checkpoint when that
wait raised), or at the final checkpoint before the page source is
processed, so an abandoned page contributes no links. -/
theorem extractor_stop_checks :
    ∀ (env : ExtractEnv) (running : Nat → Bool) (t : Nat) (exts : List String)
      (cur : String),
      (running t = false → get_media_links env running t exts cur = .ok []) ∧
      (running t = true → running (t + 1) = false →
        get_media_links env running t exts cur = .ok []) ∧
      (running t = true → running (t + 1) = true → env.bodyWait = .ok () →
        running (t + 2) = false →
        get_media_links env running t exts cur = .ok []) := by
  intro env running t exts cur
  refine ⟨?_, ?_, ?_⟩
  · intro h0; simp [get_media_links, h0]
  · intro h0 h1
    cases hw : env.bodyWait <;> simp [get_media_links, h0, h1, hw]
  · intro h0 h1 hw h2
    simp [get_media_links, h0, h1, hw, h2]

/-- Witness for C10: the flag observed false at the first internal
checkpoint yields the empty list on the concrete page. -/
theorem extractor_stop_checks_inst :
    get_media_links envBare (fun i => decide (i = 0)) 0 ["mp4"]
      "https://site.example/p" = .ok [] :=
  (extractor_stop_checks envBare (fun i => decide (i = 0)) 0 ["mp4"]
    "https://site.example/p").2.1 (by decide) (by decide)

/-! ### Claim C8 -/

lemma shapeLoop_run1 (env : NextEnv) (pat : String) :
    ∀ (shapes : List Nat) (t : Nat),
      (match firstShapeHit env pat shapes with
        | some h => shapeLoop env (fun _ => true) pat shapes t = .found h
        | none => ∃ t2, shapeLoop env (fun _ => true) pat shapes t = .exhausted t2) := by
  intro shapes
  induction shapes with
  | nil => intro t; exact ⟨t, rfl⟩
  | cons i rest ih =>
    intro t
    cases hp : env.probe pat i with
    | error u =>
      have := ih (t + 1)
      simp only [firstShapeHit, hp, shapeLoop]
      simpa using this
    | ok v =>
      cases v with
      | none =>
        have := ih (t + 1)
        simp only [firstShapeHit, hp, shapeLoop]
        simpa using this
      | some h =>
        by_cases hh : pyTruthyStr h = true
        · simp only [firstShapeHit, hp, shapeLoop, hh]
          simp
        · have := ih (t + 1)
          simp only [firstShapeHit, hp, shapeLoop, hh]
          simpa [hh] using this

lemma patLoop_run1 (env : NextEnv) :
    ∀ (patterns : List String) (t : Nat),
      patLoop env (fun _ => true) patterns t = firstHitSpec env patterns := by
  intro patterns
  induction patterns with
  | nil => intro t; rfl
  | cons p rest ih =>
    intro t
    have hs := shapeLoop_run1 env p [0, 1, 2, 3, 4] (t + 1)
    cases hfs : firstShapeHit env p [0, 1, 2, 3, 4] with
    | some h =>
      rw [hfs] at hs
      simp only [patLoop, firstHitSpec, hfs, hs]
      simp
    | none =>
      rw [hfs] at hs
      obtain ⟨t2, ht2⟩ := hs
      simp only [patLoop, firstHitSpec, hfs, ht2]
      simpa using ih t2

/-- Claim C8 (confirmed): with the flag up, `find_next_page` implements
first-match-wins over the patterns in their given order and, within each
pattern, the five selector shapes in order — the first probe resolving to an
element with a truthy href is returned, every per-probe failure is treated
as a miss, and the all-miss outcome is `None` (the embedding is total, as
the source wraps the whole body in a bare `try/except`); in particular, with
patterns `next` then `more` and only a rel-equals anchor for `more`
existing, that anchor's href is returned. -/
theorem next_page_first_match :
    (∀ (env : NextEnv) (t : Nat) (patterns : List String),
      find_next_page env (fun _ => true) t patterns = firstHitSpec env patterns) ∧
    find_next_page envMoreRel (fun _ => true) 0 ["next", "more"] =
      some "https://s.example/p2" := by
  constructor
  · intro env t patterns
    simp only [find_next_page]
    simpa using patLoop_run1 env patterns (t + 1)
  · rfl

/-! ### Claim C1 -/

/-- Claim C1 (amended): when the stop request lands between page N's
navigation and its extraction (the post-navigation sample is false), the
loop does not run extraction for page N — the seen-set, the persisted lines,
and the event trace beyond the page-N navigation are unchanged — and the
loop terminates; but the terminal state is success (`scrape_media` always
calls `scraping_finished(True)` after the loop), not failure as the original
claim stated. -/
theorem stop_after_nav_skips_extraction :
    ∀ (env : CrawlEnv) (running : Nat → Bool) (fuel : Nat) (s : CrawlState) (u : String),
      s.pageUrl = some u →
      pyTruthyStr u = true →
      running s.t = true →
      running (s.t + 1) = true →
      running (s.t + 2) = true →
      env.navigate (s.pageCount + 1) u = .ok () →
      running (s.t + 3) = false →
      (crawlLoop env running false (fuel + 1) s).2 = true ∧
      (crawlLoop env running false (fuel + 1) s).1.collected = s.collected ∧
      (crawlLoop env running false (fuel + 1) s).1.fileLines = s.fileLines ∧
      (crawlLoop env running false (fuel + 1) s).1.pageCount = s.pageCount + 1 ∧
      (crawlLoop env running false (fuel + 1) s).1.events =
        s.events ++ [.nav (s.pageCount + 1) u] ∧
      loopTerminal (crawlLoop env running false (fuel + 1) s) = some .success := by
  intro env running fuel s u hpu htu h0 h1 h2 hnav h3
  have e2 : s.t + 1 + 1 = s.t + 2 := by omega
  have e3 : s.t + 1 + 2 = s.t + 3 := by omega
  refine ⟨?_, ?_, ?_, ?_, ?_, ?_⟩ <;>
    simp [crawlLoop, crawlIter, afterNav, loopTerminal, hpu, htu, h0, h1, e2, h2,
      hnav, e3, h3]

/-- Witness for C1 (amended): the stop lands right after page 1's
navigation; nothing is extracted or persisted and the loop ends in the
success terminal state. -/
theorem stop_after_nav_skips_extraction_inst :
    (crawlLoop envOnePage (fun i => decide (i < 3)) false 1
      (initState "http://a.example/1")).2 = true ∧
    (crawlLoop envOnePage (fun i => decide (i < 3)) false 1
      (initState "http://a.example/1")).1.collected = [] ∧
    (crawlLoop envOnePage (fun i => decide (i < 3)) false 1
      (initState "http://a.example/1")).1.fileLines = [] ∧
    (crawlLoop envOnePage (fun i => decide (i < 3)) false 1
      (initState "http://a.example/1")).1.pageCount = 1 ∧
    (crawlLoop envOnePage (fun i => decide (i < 3)) false 1
      (initState "http://a.example/1")).1.events =
      [CrawlEvent.nav 1 "http://a.example/1"] ∧
    loopTerminal (crawlLoop envOnePage (fun i => decide (i < 3)) false 1
      (initState "http://a.example/1")) = some .success :=
  stop_after_nav_skips_extraction envOnePage (fun i => decide (i < 3)) 0
    (initState "http://a.example/1") "http://a.example/1" rfl (by decide)
    (by decide) (by decide) (by decide) rfl (by decide)

/-- Counterexample for C1 as stated: the stop request lands between page 2's
navigation and extraction; page 1's persisted result is intact and page 2 is
not extracted — but the run ends in the success terminal state, not the
failure terminal state the claim asserts. -/
theorem stop_after_nav_yields_success_cex :
    (scrape_media envOnePage (fun i => decide (i < 11)) false "http://a.example/1" 5).1 =
      some Terminal.success ∧
    (scrape_media envOnePage (fun i => decide (i < 11)) false "http://a.example/1" 5).2.fileLines =
      ["a.mp4"] ∧
    (scrape_media envOnePage (fun i => decide (i < 11)) false "http://a.example/1" 5).2.pageCount =
      2 ∧
    (scrape_media envOnePage (fun i => decide (i < 11)) false "http://a.example/1" 5).2.events =
      [CrawlEvent.nav 1 "http://a.example/1", CrawlEvent.extracted 1 ["a.mp4"],
       CrawlEvent.persisted 1 ["a.mp4"], CrawlEvent.paged 1 (some "http://b.example/2"),
       CrawlEvent.nav 2 "http://b.example/2"] := by
  exact ⟨rfl, rfl, rfl, rfl⟩

/-! ### Claim C2 -/

/-- Claim C2 (amended): a navigation or extraction exception for the current
page makes the loop terminate immediately — the page is not retried and no
further page is visited (the page counter stops at that page and the
seen-set and persisted lines are untouched by it) — but the terminal state
is success (`scraping_finished(True)` runs after the loop), not failure as
the original claim stated. -/
theorem page_error_aborts_loop :
    ∀ (env : CrawlEnv) (running : Nat → Bool) (fuel : Nat) (s : CrawlState) (u : String),
      s.pageUrl = some u → pyTruthyStr u = true →
      running s.t = true → running (s.t + 1) = true → running (s.t + 2) = true →
      ((env.navigate (s.pageCount + 1) u = .error () →
        (crawlLoop env running false (fuel + 1) s).2 = true ∧
        (crawlLoop env running false (fuel + 1) s).1.pageCount = s.pageCount + 1 ∧
        (crawlLoop env running false (fuel + 1) s).1.collected = s.collected ∧
        (crawlLoop env running false (fuel + 1) s).1.fileLines = s.fileLines ∧
        loopTerminal (crawlLoop env running false (fuel + 1) s) = some .success) ∧
      (env.navigate (s.pageCount + 1) u = .ok () → running (s.t + 3) = true →
        env.extract (s.pageCount + 1) u = .error () →
        (crawlLoop env running false (fuel + 1) s).2 = true ∧
        (crawlLoop env running false (fuel + 1) s).1.pageCount = s.pageCount + 1 ∧
        (crawlLoop env running false (fuel + 1) s).1.collected = s.collected ∧
        (crawlLoop env running false (fuel + 1) s).1.fileLines = s.fileLines ∧
        loopTerminal (crawlLoop env running false (fuel + 1) s) = some .success)) := by
  intro env running fuel s u hpu htu h0 h1 h2
  have e2 : s.t + 1 + 1 = s.t + 2 := by omega
  have e3 : s.t + 1 + 2 = s.t + 3 := by omega
  constructor
  · intro hnav
    refine ⟨?_, ?_, ?_, ?_, ?_⟩ <;>
      simp [crawlLoop, crawlIter, loopTerminal, hpu, htu, h0, h1, e2, h2, hnav]
  · intro hnav h3 hext
    refine ⟨?_, ?_, ?_, ?_, ?_⟩ <;>
      simp [crawlLoop, crawlIter, afterNav, loopTerminal, hpu, htu, h0, h1, e2, h2,
        hnav, e3, h3, hext]

/-- Witness for C2 (amended): extraction raises on page 1; the loop stops at
page 1 with nothing collected and ends in the success terminal state. -/
theorem page_error_aborts_loop_inst :
    (crawlLoop envExtractBoom (fun _ => true) false 1
      (initState "http://a.example/1")).2 = true ∧
    (crawlLoop envExtractBoom (fun _ => true) false 1
      (initState "http://a.example/1")).1.pageCount = 1 ∧
    (crawlLoop envExtractBoom (fun _ => true) false 1
      (initState "http://a.example/1")).1.collected = [] ∧
    (crawlLoop envExtractBoom (fun _ => true) false 1
      (initState "http://a.example/1")).1.fileLines = [] ∧
    loopTerminal (crawlLoop envExtractBoom (fun _ => true) false 1
      (initState "http://a.example/1")) = some .success :=
  (page_error_aborts_loop envExtractBoom (fun _ => true) 0
    (initState "http://a.example/1") "http://a.example/1" rfl (by decide)
    rfl rfl rfl).2 rfl rfl rfl

/-- Counterexample for C2 as stated: with extraction raising on page 1, the
run terminates at page 1 but in the success terminal state, not the failure
terminal state the claim asserts. -/
theorem page_error_yields_success_cex :
    (scrape_media envExtractBoom (fun _ => true) false "http://a.example/1" 5).1 =
      some Terminal.success ∧
    (scrape_media envExtractBoom (fun _ => true) false "http://a.example/1" 5).2.pageCount =
      1 ∧
    (scrape_media envExtractBoom (fun _ => true) false "http://a.example/1" 5).2.events =
      [CrawlEvent.nav 1 "http://a.example/1"] := by
  exact ⟨rfl, rfl, rfl⟩

/-! ### Claim C3 -/

/-- Claim C3 (amended): the code has no configurable page-count ceiling;
on a site with unlimited next-links and no stop request the loop is still
running after n pages for every n (it never stops at 3 pages), and ends in
the success terminal state only when pagination finds no next URL, the stop
flag is observed, or a page fails. -/
theorem unlimited_next_keeps_running :
    ∀ (fuel : Nat) (s : CrawlState) (u : String),
      s.pageUrl = some u → pyTruthyStr u = true →
      (crawlLoop envAlwaysNext (fun _ => true) false fuel s).2 = false ∧
      (crawlLoop envAlwaysNext (fun _ => true) false fuel s).1.pageCount =
        s.pageCount + fuel := by
  intro fuel
  induction fuel with
  | zero => intro s u hpu htu; exact ⟨rfl, rfl⟩
  | succ n ih =>
    intro s u hpu htu
    have hpos : 0 < s.pagesWithoutMedia + 1 := Nat.succ_pos _
    have htv : pyTruthyStr "http://next.example/page" = true := by decide
    have hstep : crawlLoop envAlwaysNext (fun _ => true) false (n + 1) s =
        crawlLoop envAlwaysNext (fun _ => true) false n
          { s with pageUrl := some "http://next.example/page",
                   pageCount := s.pageCount + 1,
                   pagesWithoutMedia := s.pagesWithoutMedia + 1,
                   events := s.events ++
                     [CrawlEvent.nav (s.pageCount + 1) u,
                      CrawlEvent.extracted (s.pageCount + 1) [],
                      CrawlEvent.paged (s.pageCount + 1) (some "http://next.example/page")],
                   t := s.t + 1 + 2 + 1 + 1 + 1 } := by
      simp [crawlLoop, crawlIter, afterNav, afterPersist, processMedia, sleepSamples,
        envAlwaysNext, hpu, htu, hpos, htv]
    obtain ⟨hl, hr⟩ := ih
      { s with pageUrl := some "http://next.example/page",
               pageCount := s.pageCount + 1,
               pagesWithoutMedia := s.pagesWithoutMedia + 1,
               events := s.events ++
                 [CrawlEvent.nav (s.pageCount + 1) u,
                  CrawlEvent.extracted (s.pageCount + 1) [],
                  CrawlEvent.paged (s.pageCount + 1) (some "http://next.example/page")],
               t := s.t + 1 + 2 + 1 + 1 + 1 }
      "http://next.example/page" rfl htv
    constructor
    · rw [hstep]; exact hl
    · rw [hstep, hr]
      show s.pageCount + 1 + n = s.pageCount + (n + 1)
      omega

/-- Witness for C3 (amended): after 4 iterations from the initial state the
loop has visited 4 pages and is still going. -/
theorem unlimited_next_keeps_running_inst :
    (crawlLoop envAlwaysNext (fun _ => true) false 4
      (initState "http://start.example")).2 = false ∧
    (crawlLoop envAlwaysNext (fun _ => true) false 4
      (initState "http://start.example")).1.pageCount = 4 :=
  unlimited_next_keeps_running 4 (initState "http://start.example")
    "http://start.example" rfl (by decide)

/-- Counterexample for C3 as stated: there is no max-pages setting in the
code — the crawl configuration read at the top of `scrape_media` has no such
field — and on a site with unlimited next-links the loop has visited 10
pages after 10 iterations and is still running, rather than visiting exactly
3 pages and stopping. -/
theorem no_page_ceiling_cex :
    (crawlLoop envAlwaysNext (fun _ => true) false 10
      (initState "http://start.example")).1.pageCount = 10 ∧
    (crawlLoop envAlwaysNext (fun _ => true) false 10
      (initState "http://start.example")).2 = false := by
  exact ⟨rfl, rfl⟩

/-! ### Claim C7 -/

lemma newLinksOf_nodup (media c : List String) : (newLinksOf media c).Nodup :=
  (List.nodup_dedup media).filter _

lemma newLinksOf_not_mem {l : String} {media c : List String}
    (h : l ∈ newLinksOf media c) : l ∉ c := by
  have hp := List.of_mem_filter h
  simpa using hp

lemma save_mem {l : String} {k : Nat} {links : List String}
    (h : l ∈ save_media_links_to_file k links) : l ∈ links :=
  (pySorted_perm links).mem_iff.mp (List.take_subset _ _ h)

lemma save_nodup (k : Nat) (links : List String) (h : links.Nodup) :
    (save_media_links_to_file k links).Nodup := by
  have h2 : (pySorted links).Nodup := (pySorted_perm links).nodup_iff.mpr h
  exact h2.sublist (List.take_sublist k _)

/-- The persistence invariant of the crawl loop: the output lines are
pairwise distinct, the seen-set is duplicate-free, and every persisted line
is in the seen-set. -/
def SinkInv (s : CrawlState) : Prop :=
  s.fileLines.Nodup ∧ s.collected.Nodup ∧ ∀ l ∈ s.fileLines, l ∈ s.collected

lemma sinkInv_processMedia (env : CrawlEnv) (pc : Nat) (media : List String)
    (s : CrawlState) (h : SinkInv s) : SinkInv (processMedia env pc media s) := by
  obtain ⟨hf, hc, hsub⟩ := h
  unfold processMedia
  split
  · exact ⟨hf, hc, hsub⟩
  · have hdisj : s.collected.Disjoint (newLinksOf media s.collected) :=
      fun a ha hb => newLinksOf_not_mem hb ha
    split
    · refine ⟨hf, hc.append (newLinksOf_nodup media s.collected) hdisj, ?_⟩
      intro l hl
      exact List.mem_append_left _ (hsub l hl)
    · refine ⟨?_, hc.append (newLinksOf_nodup media s.collected) hdisj, ?_⟩
      · refine hf.append (save_nodup _ _ (newLinksOf_nodup media s.collected)) ?_
        intro a ha hb
        exact newLinksOf_not_mem (save_mem hb) (hsub a ha)
      · intro l hl
        rcases List.mem_append.mp hl with hl | hl
        · exact List.mem_append_left _ (hsub l hl)
        · exact List.mem_append_right _ (save_mem hl)

lemma sinkInv_afterPersist (env : CrawlEnv) (running : Nat → Bool) (pc : Nat)
    (url : String) (s2 : CrawlState) (h : SinkInv s2) :
    SinkInv (stateOfIter (afterPersist env running pc url s2)) := by
  unfold afterPersist
  split
  · exact h
  · split
    · exact h
    · split
      · exact h
      · exact h

lemma sinkInv_afterNav (env : CrawlEnv) (running : Nat → Bool) (pc : Nat)
    (url : String) (s : CrawlState) (h : SinkInv s) :
    SinkInv (stateOfIter (afterNav env running pc url s)) := by
  unfold afterNav
  split
  · exact h
  · split
    · exact h
    · exact sinkInv_afterPersist env running pc url _
        (sinkInv_processMedia env pc _ _ h)

lemma sinkInv_crawlIter (env : CrawlEnv) (running : Nat → Bool) (captcha : Bool)
    (s : CrawlState) (url : String) (h : SinkInv s) :
    SinkInv (stateOfIter (crawlIter env running captcha s url)) := by
  unfold crawlIter
  split
  · exact h
  · split
    · split
      · exact h
      · split
        · exact h
        · exact sinkInv_afterNav env running _ url _ h
    · exact sinkInv_afterNav env running _ url _ h

lemma sinkInv_crawlLoop (env : CrawlEnv) (running : Nat → Bool) (captcha : Bool) :
    ∀ (fuel : Nat) (s : CrawlState), SinkInv s →
      SinkInv ((crawlLoop env running captcha fuel s).1) := by
  intro fuel
  induction fuel with
  | zero => intro s h; exact h
  | succ n ih =>
    intro s h
    cases hpu : s.pageUrl with
    | none => simpa [crawlLoop, hpu] using h
    | some url =>
      by_cases htu : pyTruthyStr url = false
      · simpa [crawlLoop, hpu, htu] using h
      · by_cases hr : running s.t = false
        · simpa [crawlLoop, hpu, htu, hr] using h
        · have hiter := sinkInv_crawlIter env running captcha
            { s with t := s.t + 1 } url h
          cases hit : crawlIter env running captcha { s with t := s.t + 1 } url with
          | done s2 =>
            rw [hit] at hiter
            rw [hpu] at hit
            simpa [crawlLoop, hpu, htu, hr, hit] using hiter
          | next s2 =>
            rw [hit] at hiter
            rw [hpu] at hit
            have hrec := ih s2 hiter
            simpa [crawlLoop, hpu, htu, hr, hit] using hrec

/-- Claim C7 (confirmed): across a whole crawl run, the lines appended to
the output file are pairwise distinct — each link is written at most once,
because the loop subtracts the seen-set from the extraction, writes only the
(sorted) difference, and merges it into the seen-set — and every written
line is a member of the final seen-set. -/
theorem file_lines_written_once :
    ∀ (env : CrawlEnv) (running : Nat → Bool) (captcha : Bool) (url : String)
      (fuel : Nat),
      ((crawlLoop env running captcha fuel (initState url)).1.fileLines).Nodup ∧
      (∀ l ∈ (crawlLoop env running captcha fuel (initState url)).1.fileLines,
        l ∈ (crawlLoop env running captcha fuel (initState url)).1.collected) := by
  intro env running captcha url fuel
  have h0 : SinkInv (initState url) :=
    ⟨List.nodup_nil, List.nodup_nil, by intro l hl; cases hl⟩
  obtain ⟨h1, _, h3⟩ := sinkInv_crawlLoop env running captcha fuel (initState url) h0
  exact ⟨h1, h3⟩
